import Mathlib

/-!
Shallow embedding of `src/updater/install.c` (the builtin-function layer of the
Android recovery updater's edify scripting runtime).

Modelling conventions:
* An argument vector is a `List (Option String)`: the j-th entry is the result
  of `Evaluate(cookie, argv[j])`, with `none` standing for a `NULL` return
  (evaluation failure).  `argc` is the length of that list.
* Evaluated argument strings are heap objects identified by their index; the
  `freed` field of an output records, in order, the indices of argument objects
  passed to `free` (a repeated index is a double free).  Frees performed inside
  the external evaluator helpers (`ReadArgs` / `ReadVarArgs`, in edify/expr.c,
  outside this file's source) are not modelled.
* A builtin's return value is `Ret.abort` when the C function returns `NULL`,
  `Ret.argStr i` when it returns the very pointer of the i-th evaluated
  argument, and `Ret.fresh s` when it returns a freshly allocated string
  (`strdup`) with contents `s`.
* `errMsg = some m` records that `ErrorAbort` (the `report_abort` channel,
  which calls `SetError`) was invoked with the formatted message `m`;
  `none` means `ErrorAbort` was never called on that path.
* External drivers (mtd, mount(2), unlink, minzip, ...) are oracles packaged in
  `World` structures; their observable invocations are logged in the outputs.
-/

namespace Updater

/-- Return channel of a builtin: `NULL` (abort), a repurposed evaluated
argument object, or a freshly allocated string. -/
inductive Ret
  | abort
  | argStr (i : Nat)
  | fresh (s : String)
  deriving DecidableEq

/-- `ReadArgs` / `ReadVarArgs`: succeed with all evaluated strings iff every
single evaluation succeeded (the helpers return `NULL` as soon as one
`Evaluate` returns `NULL`). -/
def readVarArgs : List (Option String) → Option (List String)
  | [] => some []
  | none :: _ => none
  | some s :: rest => (readVarArgs rest).map (s :: ·)

/-- Output of `MountFn` / `UnmountFn` / `FormatFn` (no extra side-effect log
beyond frees and the error sink is needed for these). -/
structure MOut where
  ret : Ret
  freed : List Nat
  errMsg : Option String

/-- Oracles for the external calls made by `MountFn`. -/
structure MntWorld where
  /-- `mtd_find_partition_by_name(location) != NULL` -/
  mtdHasPartition : String → Bool
  /-- `mtd_mount_partition(...) == 0` -/
  mtdMountOk : Bool
  /-- `mount(location, mount_point, type, ...) >= 0` -/
  sysMountOk : Bool

/-- `MountFn` from src/updater/install.c. -/
def MountFn (name : String) (args : List (Option String)) (w : MntWorld) : MOut :=
  let argc := args.length
  if argc ≠ 3 then
    ⟨.abort, [], some (name ++ "() expects 3 args, got " ++ toString argc)⟩
  else
    match readVarArgs args with
    | none => ⟨.abort, [], none⟩
    | some vs =>
      let type := vs.getD 0 ""
      let location := vs.getD 1 ""
      let mount_point := vs.getD 2 ""
      let body : Ret × Option String :=
        if type = "" then
          (.abort, some ("type argument to " ++ name ++ "() can't be empty"))
        else if location = "" then
          (.abort, some ("location argument to " ++ name ++ "() can't be empty"))
        else if mount_point = "" then
          (.abort, some ("mount_point argument to " ++ name ++ "() can't be empty"))
        else if type = "MTD" then
          if ¬ w.mtdHasPartition location then (.fresh "", none)
          else if ¬ w.mtdMountOk then (.fresh "", none)
          else (.argStr 2, none)
        else
          if ¬ w.sysMountOk then (.fresh "", none) else (.argStr 2, none)
      -- done: free(type); free(location); if (result != mount_point) free(mount_point);
      ⟨body.1, [0, 1] ++ (if body.1 = .argStr 2 then [] else [2]), body.2⟩

/-- Oracle for `UnmountFn`: `find_mounted_volume_by_mount_point(mp) != NULL`. -/
structure UmWorld where
  findVolume : String → Bool

/-- `UnmountFn` from src/updater/install.c. -/
def UnmountFn (name : String) (args : List (Option String)) (w : UmWorld) : MOut :=
  let argc := args.length
  if argc ≠ 1 then
    ⟨.abort, [], some (name ++ "() expects 1 arg, got " ++ toString argc)⟩
  else
    match readVarArgs args with
    | none => ⟨.abort, [], none⟩
    | some vs =>
      let mount_point := vs.getD 0 ""
      let body : Ret × Option String :=
        if mount_point = "" then
          (.abort, some "mount_point argument to unmount() can't be empty")
        else if ¬ w.findVolume mount_point then (.fresh "", none)
        else (.argStr 0, none)
      -- done: if (result != mount_point) free(mount_point);
      ⟨body.1, (if body.1 = .argStr 0 then [] else [0]), body.2⟩

/-- Oracles for the external mtd calls made by `FormatFn`. -/
structure FmtWorld where
  /-- `mtd_find_partition_by_name(location) != NULL` -/
  mtdHasPartition : String → Bool
  /-- `mtd_write_partition(mtd) != NULL` -/
  mtdWriteOk : Bool
  /-- `mtd_erase_blocks(ctx, -1) != -1` -/
  eraseOk : Bool
  /-- `mtd_write_close(ctx) == 0` -/
  closeOk : Bool

/-- `FormatFn` from src/updater/install.c.  Note the non-"MTD" branch: the C
code only prints a diagnostic to stderr and leaves `result == NULL`, so the
function returns `NULL` without ever calling `ErrorAbort`. -/
def FormatFn (name : String) (args : List (Option String)) (w : FmtWorld) : MOut :=
  let argc := args.length
  if argc ≠ 2 then
    ⟨.abort, [], some (name ++ "() expects 2 args, got " ++ toString argc)⟩
  else
    match readVarArgs args with
    | none => ⟨.abort, [], none⟩
    | some vs =>
      let type := vs.getD 0 ""
      let location := vs.getD 1 ""
      let body : Ret × Option String :=
        if type = "" then
          (.abort, some ("type argument to " ++ name ++ "() can't be empty"))
        else if location = "" then
          (.abort, some ("location argument to " ++ name ++ "() can't be empty"))
        else if type = "MTD" then
          if ¬ w.mtdHasPartition location then (.fresh "", none)
          else if ¬ w.mtdWriteOk then (.fresh "", none)
          else if ¬ w.eraseOk then (.fresh "", none)
          else if ¬ w.closeOk then (.fresh "", none)
          else (.argStr 1, none)
        else
          (.abort, none)  -- fprintf only; result stays NULL, no ErrorAbort
      -- done: free(type); if (result != location) free(location);
      ⟨body.1, [0] ++ (if body.1 = .argStr 1 then [] else [1]), body.2⟩

/-! ## DeleteFn -/

/-- Index of the first argument whose evaluation fails (first `i` with
`paths[i] == NULL` in `DeleteFn`'s evaluation loop), counting from `start`. -/
def firstFail : List (Option String) → Nat → Option Nat
  | [], _ => none
  | none :: _, i => some i
  | some _ :: rest, i => firstFail rest (i + 1)

/-- Trace of `DeleteFn`'s cleanup loop `for (j = 0; j < i; ++i) free(paths[j]);`
exactly as written in the C (the loop increments `i`, not `j`).  `fuel` bounds
the number of iterations simulated; the result is the list of indices freed and
whether the loop's condition became false within `fuel` iterations. -/
def cleanupTrace : Nat → Nat → Nat → List Nat × Bool
  | 0, j, i => ([], decide (¬ j < i))
  | fuel + 1, j, i =>
    if j < i then
      let t := cleanupTrace fuel j (i + 1)
      (j :: t.1, t.2)
    else ([], true)

/-- Number of `i < n` for which the removal call
(`dirUnlinkHierarchy(paths[i])` resp. `unlink(paths[i])`) returned 0. -/
def countSuccess (removeOk : Nat → Bool) (n : Nat) : Nat :=
  ((List.range n).filter removeOk).length

/-- Result of a `DeleteFn` run: either the function returned, or the given
fuel ran out inside the (non-terminating) cleanup loop. -/
inductive DelRes
  | ret (r : Ret) (freed : List Nat)
  | diverged (freed : List Nat)

/-- `DeleteFn` from src/updater/install.c.  `unlinkOk i` / `dirUnlinkOk i` are
the oracles for `unlink(paths[i]) == 0` resp.
`dirUnlinkHierarchy(paths[i]) == 0`; the builtin picks between them by the
name it was registered under.  The evaluation loop inlined in the C evaluates
arguments in order; on the first failure it runs the cleanup loop (faithfully
including its `++i` increment) and returns `NULL`. -/
def DeleteFn (name : String) (args : List (Option String))
    (unlinkOk dirUnlinkOk : Nat → Bool) (fuel : Nat) : DelRes :=
  match firstFail args 0 with
  | some i =>
    let t := cleanupTrace fuel 0 i
    if t.2 then .ret .abort t.1 else .diverged t.1
  | none =>
    let argc := args.length
    let recursive := name = "delete_recursive"
    let removeOk := if recursive then dirUnlinkOk else unlinkOk
    -- removal loop: attempts removal of every path, counts successes,
    -- frees each evaluated path exactly once
    .ret (.fresh (toString (countSuccess removeOk argc))) (List.range argc)

/-! ## ShowProgressFn -/

/-- Output of `ShowProgressFn`: the progress line is recorded as the raw
argument strings handed to `strtod`/`strtol` (the numeric rendering through
`fprintf` is not needed by any claim). -/
structure SPgOut where
  ret : Ret
  freed : List Nat
  errMsg : Option String
  progress : List (String × String)

/-- `ShowProgressFn` from src/updater/install.c. -/
def ShowProgressFn (name : String) (args : List (Option String)) : SPgOut :=
  let argc := args.length
  if argc ≠ 2 then
    ⟨.abort, [], some (name ++ "() expects 2 args, got " ++ toString argc), []⟩
  else
    match readVarArgs args with
    | none => ⟨.abort, [], none, []⟩
    | some vs =>
      let frac_str := vs.getD 0 ""
      let sec_str := vs.getD 1 ""
      ⟨.fresh "", [0, 1], none, [(frac_str, sec_str)]⟩

/-! ## PackageExtractFn -/

/-- The argument record of one `mzExtractRecursive` call. -/
structure ExtractCall where
  zipPath : String
  destPath : String
  /-- `timestamp.actime` -/
  actime : Nat
  /-- `timestamp.modtime` -/
  modtime : Nat
  /-- `MZ_EXTRACT_FILES_ONLY` was passed -/
  filesOnly : Bool

/-- Modelled from the spec: `mzExtractRecursive` (minzip/Zip.c, outside this
repository snapshot's src) "extracts files (not directories) recursively from
the context's currently open archive into the destination, forcing every
extracted file's modification timestamp" to the timestamp it is passed.  The
archive handle is abstracted to the set of files under a path and a success
oracle; the on-disk metadata produced is each extracted file stamped with the
passed `modtime`. -/
structure ZipModel where
  /-- names of the archive files under a given archive-relative path -/
  entriesUnder : String → List String
  /-- whether extraction of (zipPath, destPath) succeeds as a whole -/
  extractSucceeds : String → String → Bool

/-- Modelled from the spec: the observable effect of one `mzExtractRecursive`
call — overall success, and the (file, modification-timestamp) metadata
written to disk. -/
def mzExtractRecursive (za : ZipModel) (c : ExtractCall) :
    Bool × List (String × Nat) :=
  (za.extractSucceeds c.zipPath c.destPath,
   (za.entriesUnder c.zipPath).map (fun f => (c.destPath ++ "/" ++ f, c.modtime)))

/-- Output of `PackageExtractFn`. -/
structure PkgOut where
  ret : Ret
  freed : List Nat
  errMsg : Option String
  calls : List ExtractCall
  diskMeta : List (String × Nat)

/-- `PackageExtractFn` from src/updater/install.c.  `clock` is the ambient
wall-clock time at the moment of the call; the C function never reads it
(the timestamp is the literal 1217592000), and the model keeps it as an
explicit parameter so that independence can be stated. -/
def PackageExtractFn (name : String) (args : List (Option String))
    (za : ZipModel) (_clock : Nat) : PkgOut :=
  let argc := args.length
  if argc ≠ 2 then
    ⟨.abort, [], some (name ++ "() expects 2 args, got " ++ toString argc), [], []⟩
  else
    match readVarArgs args with
    | none => ⟨.abort, [], none, [], []⟩
    | some vs =>
      let zip_path := vs.getD 0 ""
      let dest_path := vs.getD 1 ""
      let call : ExtractCall := ⟨zip_path, dest_path, 1217592000, 1217592000, true⟩
      let r := mzExtractRecursive za call
      ⟨.fresh (if r.1 then "t" else ""), [0, 1], none, [call], r.2⟩

/-! ## SymlinkFn -/

/-- Output of `SymlinkFn`: `links` records each `symlink(target, srcs[i])`
call in order; the C ignores the return value of every such call. -/
structure SymOut where
  ret : Ret
  freed : List Nat
  errMsg : Option String
  links : List (String × String)

/-- `SymlinkFn` from src/updater/install.c.  Argument 0 is the target; the
remaining arguments are the sources.  On the success path the C frees every
`srcs[i]` (argument objects 1..argc-1) but never frees `target`. -/
def SymlinkFn (name : String) (args : List (Option String)) : SymOut :=
  match args with
  | [] => ⟨.abort, [], some (name ++ "() expects 1+ args, got 0"), []⟩
  | t0 :: rest =>
    match t0 with
    | none => ⟨.abort, [], none, []⟩
    | some target =>
      match readVarArgs rest with
      | none => ⟨.abort, [0], none, []⟩  -- free(target)
      | some srcs =>
        ⟨.fresh "", (List.range srcs.length).map (· + 1), none,
          srcs.map (fun s => (target, s))⟩

/-! ## strtoul with base 0 (C standard library semantics, 32-bit unsigned long) -/

/-- `isspace` for the characters the C locale treats as whitespace. -/
def isCSpace (c : Char) : Bool :=
  c = ' ' || c = '\t' || c = '\n' || c = '\x0b' || c = '\x0c' || c = '\r'

/-- Numeric value of a digit character up to base 16. -/
def digitVal (c : Char) : Option Nat :=
  if '0' ≤ c ∧ c ≤ '9' then some (c.toNat - '0'.toNat)
  else if 'a' ≤ c ∧ c ≤ 'f' then some (c.toNat - 'a'.toNat + 10)
  else if 'A' ≤ c ∧ c ≤ 'F' then some (c.toNat - 'A'.toNat + 10)
  else none

/-- Consume digits of the given base: accumulated value and count consumed. -/
def parseDigits (base : Nat) (acc : Nat) (k : Nat) : List Char → Nat × Nat
  | [] => (acc, k)
  | c :: cs =>
    match digitVal c with
    | some d => if d < base then parseDigits base (acc * base + d) (k + 1) cs
                else (acc, k)
    | none => (acc, k)

/-- Reduce a parsed magnitude to `unsigned long` (32-bit target), applying
the sign as C's `strtoul` does. -/
def ulongFinish (neg : Bool) (v : Nat) : Nat :=
  if neg then (2 ^ 32 - v % 2 ^ 32) % 2 ^ 32 else v % 2 ^ 32

/-- `strtoul(s, &end, 0)` on a character list: returns the converted value and
the number of characters consumed (`end - s`); consumed is 0 exactly when no
conversion could be performed. -/
def strtoul0Chars (cs : List Char) : Nat × Nat :=
  let ws := (cs.takeWhile isCSpace).length
  let rest := cs.drop ws
  let signed : Bool × Nat × List Char :=
    match rest with
    | '-' :: r => (true, 1, r)
    | '+' :: r => (false, 1, r)
    | r => (false, 0, r)
  let neg := signed.1
  let sgn := signed.2.1
  match signed.2.2 with
  | '0' :: 'x' :: r =>
    let p := parseDigits 16 0 0 r
    if p.2 = 0 then (0, ws + sgn + 1)  -- just the "0" is the subject sequence
    else (ulongFinish neg p.1, ws + sgn + 2 + p.2)
  | '0' :: 'X' :: r =>
    let p := parseDigits 16 0 0 r
    if p.2 = 0 then (0, ws + sgn + 1)
    else (ulongFinish neg p.1, ws + sgn + 2 + p.2)
  | '0' :: r =>
    let p := parseDigits 8 0 0 ('0' :: r)
    (ulongFinish neg p.1, ws + sgn + p.2)
  | r =>
    let p := parseDigits 10 0 0 r
    if p.2 = 0 then (0, 0) else (ulongFinish neg p.1, ws + sgn + p.2)

/-- `strtoul(s, &end, 0)` on a string: (value, characters consumed). -/
def strtoul0 (s : String) : Nat × Nat := strtoul0Chars s.data

/-- The acceptance test `SetPermFn` applies after each `strtoul` call:
`*end == '\0' && args[k][0] != 0`, i.e. the whole string was consumed and it
is non-empty. -/
def parsedOk (s : String) : Bool := (strtoul0 s).2 = s.length && s ≠ ""

/-! ## SetPermFn -/

/-- Rendering of `SetPermFn`'s parse-failure diagnostic format
`"%s: \"%s\" not a valid <kind>"` with `<kind>` one of
uid/gid/mode/dirmode/filemode. -/
def permMsg (name tok kind : String) : String :=
  name ++ ": \"" ++ tok ++ "\" not a valid " ++ kind

/-- Output of `SetPermFn`: `chowns`/`chmods` log the non-recursive per-target
calls in order; `recSets` logs the `dirSetHierarchyPermissions(path, uid, gid,
dir_mode, file_mode)` calls of the recursive variant. -/
structure SPOut where
  ret : Ret
  freed : List Nat
  errMsg : Option String
  chowns : List (String × Nat × Nat)
  chmods : List (String × Nat)
  recSets : List (String × Nat × Nat × Nat × Nat)

/-- `SetPermFn` from src/updater/install.c.  `garbage` models the
indeterminate `int` that `vsnprintf` reads for the third conversion of the
arity format string `"%s() expects %d+ args, got %d"`, which the C call
supplies only two variadic arguments for (`name, argc`).  Note the target
loops: both variants run `for (i = 4; i < argc; ++i)`, so the non-recursive
variant never touches `args[3]`. -/
def SetPermFn (name : String) (args : List (Option String)) (garbage : Int) :
    SPOut :=
  let argc := args.length
  let recursive := name = "set_perm_recursive"
  let min_args := 4 + (if recursive then 1 else 0)
  if argc < min_args then
    ⟨.abort, [],
      some (name ++ "() expects " ++ toString argc ++ "+ args, got " ++
        toString garbage), [], [], []⟩
  else
    match readVarArgs args with
    | none => ⟨.abort, [], none, [], [], []⟩
    | some vs =>
      let a0 := vs.getD 0 ""
      let a1 := vs.getD 1 ""
      let a2 := vs.getD 2 ""
      let a3 := vs.getD 3 ""
      let allFreed := List.range argc  -- done: frees args[0..argc-1]
      if ¬ parsedOk a0 then
        ⟨.abort, allFreed,
          some (permMsg name a0 "uid"), [], [], []⟩
      else
        let uid := (strtoul0 a0).1
        if ¬ parsedOk a1 then
          ⟨.abort, allFreed,
            some (permMsg name a1 "gid"), [], [], []⟩
        else
          let gid := (strtoul0 a1).1
          if recursive then
            if ¬ parsedOk a2 then
              ⟨.abort, allFreed,
                some (permMsg name a2 "dirmode"),
                [], [], []⟩
            else if ¬ parsedOk a3 then
              ⟨.abort, allFreed,
                some (permMsg name a3 "filemode"),
                [], [], []⟩
            else
              let dir_mode := (strtoul0 a2).1
              let file_mode := (strtoul0 a3).1
              ⟨.fresh "", allFreed, none, [], [],
                (vs.drop 4).map (fun p => (p, uid, gid, dir_mode, file_mode))⟩
          else
            if ¬ parsedOk a2 then
              ⟨.abort, allFreed,
                some (permMsg name a2 "mode"),
                [], [], []⟩
            else
              let mode := (strtoul0 a2).1
              -- for (i = 4; i < argc; ++i) { chown(args[i],...); chmod(args[i],...); }
              ⟨.fresh "", allFreed, none,
                (vs.drop 4).map (fun p => (p, uid, gid)),
                (vs.drop 4).map (fun p => (p, mode)), []⟩

/-- The success condition of `MountFn`'s driver phase, read off the body of
the C function: for type "MTD" the partition must exist and
`mtd_mount_partition` must succeed; otherwise `mount(2)` must succeed. -/
def mountDriverOk (type location : String) (w : MntWorld) : Bool :=
  if type = "MTD" then w.mtdHasPartition location && w.mtdMountOk
  else w.sysMountOk

/-! ## Helper lemmas -/

theorem readVarArgs_map_some (vs : List String) :
    readVarArgs (vs.map some) = some vs := by
  induction vs with
  | nil => rfl
  | cons v vs ih => simp [readVarArgs, ih]

theorem firstFail_map_some (vs : List String) (i : Nat) :
    firstFail (vs.map some) i = none := by
  induction vs generalizing i with
  | nil => rfl
  | cons v vs ih => simpa [firstFail] using ih (i + 1)

/-- The cleanup loop entered with `j = 0` against a positive bound never makes
progress on `j`: after `fuel` iterations it has freed `paths[0]` `fuel` times
and its condition is still true. -/
theorem cleanupTrace_stuck (fuel : Nat) :
    ∀ i, 0 < i → cleanupTrace fuel 0 i = (List.replicate fuel 0, false) := by
  induction fuel with
  | zero =>
    intro i hi
    simp [cleanupTrace, Nat.not_le.mpr hi]
  | succ n ih =>
    intro i hi
    simp [cleanupTrace, hi, ih (i + 1) (Nat.lt_trans hi (Nat.lt_succ_self i)),
      List.replicate_succ]

theorem getD_mem {α : Type} {l : List α} {n : Nat} {d : α}
    (h : n < l.length) : l.getD n d ∈ l := by
  induction l generalizing n with
  | nil => simp at h
  | cons a t ih =>
    cases n with
    | zero => simp [List.getD]
    | succ k =>
      have := ih (n := k) (by simpa using h)
      simp [List.getD] at this ⊢
      exact Or.inr this

/-! ## Claim theorems -/

/-- C1: refuted on the code. With 2 successfully evaluated, non-empty
arguments whose type is not "MTD" (here `format("ext4", "/dev/block/x")`),
`FormatFn` leaves `result == NULL` after the stderr diagnostic and returns
`NULL` — the abort signal — without ever invoking `ErrorAbort`
(`errMsg = none`), instead of returning an owned empty string; this also
violates the "abort iff report_abort" contract. -/
theorem C1_format_unsupported_type_returns_abort_without_report :
    FormatFn "format" [some "ext4", some "/dev/block/x"]
      ⟨fun _ => true, true, true, true⟩ = ⟨.abort, [0, 1], none⟩ ∧
    (FormatFn "format" [some "ext4", some "/dev/block/x"]
      ⟨fun _ => true, true, true, true⟩).ret ≠ .fresh "" := by
  exact ⟨rfl, by decide⟩

/-- C2: refuted on the code. For `delete(e0, e1)` where `e0` evaluates to
"/a" and evaluation of `e1` fails (the failure index is 1), the cleanup loop
`for (j = 0; j < i; ++i) free(paths[j]);` increments `i` instead of `j`: for
every fuel bound it has freed `paths[0]` once per iteration (a double free
from the second iteration on) and never exits, instead of freeing `paths[0]`
exactly once and returning the abort signal. -/
theorem C2_delete_cleanup_loop_double_frees_and_never_exits (fuel : Nat) :
    DeleteFn "delete" [some "/a", none] (fun _ => true) (fun _ => true) fuel =
      .diverged (List.replicate fuel 0) := by
  have h : firstFail [some "/a", none] 0 = some 1 := rfl
  simp [DeleteFn, h, cleanupTrace_stuck fuel 1 Nat.one_pos]

/-- C3: refuted on the code (non-recursive case). The non-recursive target
loop starts at index 4, skipping `args[3]` — the first target.  For
`set_perm("0","0","0644","/a")` the uid/gid/mode parse succeeds and the
builtin returns empty success, yet performs no `chown` and no `chmod` at all,
in particular none on the target "/a". -/
theorem C3_set_perm_skips_first_target :
    SetPermFn "set_perm" [some "0", some "0", some "0644", some "/a"] 0 =
      ⟨.fresh "", [0, 1, 2, 3], none, [], [], []⟩ := by
  rfl

/-- C4: refuted on the code. `SetPermFn`'s arity-violation `ErrorAbort` call
supplies only `(name, argc)` for the format `"%s() expects %d+ args, got %d"`,
so the recorded message puts the actual count in the "expects" slot and an
indeterminate value (modelled by the `garbage` parameter, here 37) in the
"got" slot: for `set_perm` invoked with 2 arguments the message is
"set_perm() expects 2+ args, got 37", not the claimed
"set_perm() expects 4+ args, got 2". -/
theorem C4_set_perm_arity_message_misformatted :
    SetPermFn "set_perm" [some "0", some "0"] 37 =
      ⟨.abort, [], some "set_perm() expects 2+ args, got 37", [], [], []⟩ ∧
    "set_perm() expects 2+ args, got 37" ≠
      "set_perm() expects 4+ args, got 2" := by
  exact ⟨rfl, by decide⟩

/-- C8: refuted on the code in its release part. For
`symlink("/t", "/a")` with both arguments evaluated successfully, the builtin
does return an owned empty success value and records the single
`symlink("/t", "/a")` call without inspecting its result, but it frees only
the source (argument object 1): the target (argument object 0) is never
released on the success path. -/
theorem C8_symlink_success_leaks_target :
    SymlinkFn "symlink" [some "/t", some "/a"] =
      ⟨.fresh "", [1], none, [("/t", "/a")]⟩ ∧
    0 ∉ (SymlinkFn "symlink" [some "/t", some "/a"]).freed := by
  exact ⟨rfl, by decide⟩

/-- C5: for delete/delete_recursive with every path argument evaluated
successfully, the return value is a freshly allocated success string holding
the decimal count of paths whose removal call succeeded (the removal oracle is
chosen by registered name), every evaluated path is freed exactly once, and
no soft-failure or abort arises from individual removal failures (the result
shape is `.fresh` of the count for every removal oracle, including the
zero-argument case, where the count is 0). -/
theorem C5_delete_returns_decimal_success_count
    (name : String) (vs : List String) (unlinkOk dirUnlinkOk : Nat → Bool)
    (fuel : Nat) :
    DeleteFn name (vs.map some) unlinkOk dirUnlinkOk fuel =
      .ret (.fresh (toString (countSuccess
          (if name = "delete_recursive" then dirUnlinkOk else unlinkOk)
          vs.length)))
        (List.range vs.length) := by
  simp [DeleteFn, firstFail_map_some]

/-- C6: for `mount` with 3 successfully evaluated non-empty arguments, the
driver-success outcome returns the mount_point argument object itself (object
2) and frees exactly type and location (objects 0 and 1); the failure outcome
(absent MTD partition, failed mtd mount, or failed generic mount) returns a
freshly allocated empty string and additionally frees mount_point exactly
once; `ErrorAbort` is never invoked. -/
theorem C6_mount_result_ownership (t l m : String) (w : MntWorld)
    (ht : t ≠ "") (hl : l ≠ "") (hm : m ≠ "") :
    MountFn "mount" [some t, some l, some m] w =
      if mountDriverOk t l w then ⟨.argStr 2, [0, 1], none⟩
      else ⟨.fresh "", [0, 1, 2], none⟩ := by
  by_cases hM : t = "MTD" <;>
    by_cases hp : w.mtdHasPartition l <;>
      by_cases hmm : w.mtdMountOk <;>
        by_cases hs : w.sysMountOk <;>
          simp [MountFn, readVarArgs, mountDriverOk, ht, hl, hm, hM, hp, hmm, hs]

/-- Witness for C6 at concrete inputs: a successful generic mount repurposes
the mount_point object, and a failed MTD lookup yields a fresh empty string
with mount_point freed. -/
theorem C6_mount_result_ownership_witness :
    MountFn "mount" [some "vfat", some "/dev/b", some "/mnt"]
      ⟨fun _ => false, false, true⟩ = ⟨.argStr 2, [0, 1], none⟩ ∧
    MountFn "mount" [some "MTD", some "boot", some "/mnt"]
      ⟨fun _ => false, false, true⟩ = ⟨.fresh "", [0, 1, 2], none⟩ := by
  constructor
  · have h := C6_mount_result_ownership "vfat" "/dev/b" "/mnt"
      ⟨fun _ => false, false, true⟩ (by decide) (by decide) (by decide)
    simpa [mountDriverOk] using h
  · have h := C6_mount_result_ownership "MTD" "boot" "/mnt"
      ⟨fun _ => false, false, true⟩ (by decide) (by decide) (by decide)
    simpa [mountDriverOk] using h

/-- C7: `package_extract` with both arguments evaluated successfully is
independent of the wall clock (two runs at different clock values are
identical), issues exactly one extraction call whose actime and modtime are
the literal 1217592000, stamps every produced on-disk file with that constant,
frees both arguments, returns a fresh "t" on extraction success and a fresh
empty string (soft failure, `ErrorAbort` never invoked) on failure. -/
theorem C7_package_extract_fixed_timestamp_reproducible
    (zp dp : String) (za : ZipModel) (clock1 clock2 : Nat) :
    PackageExtractFn "package_extract" [some zp, some dp] za clock1 =
      PackageExtractFn "package_extract" [some zp, some dp] za clock2 ∧
    PackageExtractFn "package_extract" [some zp, some dp] za clock1 =
      ⟨.fresh (if za.extractSucceeds zp dp then "t" else ""), [0, 1], none,
        [⟨zp, dp, 1217592000, 1217592000, true⟩],
        (za.entriesUnder zp).map (fun f => (dp ++ "/" ++ f, 1217592000))⟩ := by
  constructor <;> simp [PackageExtractFn, readVarArgs, mzExtractRecursive]

/-- C9: for set_perm / set_perm_recursive with sufficient arity and all
arguments evaluated, if the uid, gid, or mode (dirmode/filemode for the
recursive variant) argument is empty or not consumed in full by
`strtoul(-, -, 0)`, the builtin returns the abort signal, performs no chown,
chmod or recursive permission walk, frees every argument exactly once, and
records via `ErrorAbort` a diagnostic quoting an offending token. -/
theorem C9_set_perm_parse_failure_aborts_without_side_effects
    (name : String) (vs : List String) (g : Int)
    (hlen : 4 + (if name = "set_perm_recursive" then 1 else 0) ≤ vs.length)
    (hbad : parsedOk (vs.getD 0 "") = false ∨ parsedOk (vs.getD 1 "") = false ∨
            parsedOk (vs.getD 2 "") = false ∨
            (name = "set_perm_recursive" ∧ parsedOk (vs.getD 3 "") = false)) :
    (SetPermFn name (vs.map some) g).ret = .abort ∧
    (SetPermFn name (vs.map some) g).chowns = [] ∧
    (SetPermFn name (vs.map some) g).chmods = [] ∧
    (SetPermFn name (vs.map some) g).recSets = [] ∧
    (SetPermFn name (vs.map some) g).freed = List.range vs.length ∧
    ∃ tok kind, tok ∈ vs ∧ parsedOk tok = false ∧
      (SetPermFn name (vs.map some) g).errMsg =
        some (permMsg name tok kind) := by
  have h4 : 4 ≤ vs.length := by
    refine le_trans ?_ hlen
    split <;> omega
  rcases vs with _ | ⟨a0, vs⟩
  · simp at h4
  rcases vs with _ | ⟨a1, vs⟩
  · simp at h4
  rcases vs with _ | ⟨a2, vs⟩
  · simp at h4
  rcases vs with _ | ⟨a3, rest⟩
  · simp at h4
  simp only [List.getD_cons_zero, List.getD_cons_succ] at hbad
  by_cases hrec : name = "set_perm_recursive"
  · have hq : ¬ (rest.length + 1 + 1 + 1 + 1 < 5) := by
      simp [hrec] at hlen
      omega
    rcases (Bool.eq_false_or_eq_true (parsedOk a0)).symm with hp0 | hp0
    · exact ⟨by simp [SetPermFn, permMsg, readVarArgs, readVarArgs_map_some, hrec, hq, hp0],
        by simp [SetPermFn, permMsg, readVarArgs, readVarArgs_map_some, hrec, hq, hp0],
        by simp [SetPermFn, permMsg, readVarArgs, readVarArgs_map_some, hrec, hq, hp0],
        by simp [SetPermFn, permMsg, readVarArgs, readVarArgs_map_some, hrec, hq, hp0],
        by simp [SetPermFn, permMsg, readVarArgs, readVarArgs_map_some, hrec, hq, hp0,
          List.range_succ_eq_map],
        a0, "uid", by simp, hp0,
        by simp [SetPermFn, permMsg, readVarArgs, readVarArgs_map_some, hrec, hq, hp0]⟩
    rcases (Bool.eq_false_or_eq_true (parsedOk a1)).symm with hp1 | hp1
    · exact ⟨by simp [SetPermFn, permMsg, readVarArgs, readVarArgs_map_some, hrec, hq, hp0, hp1],
        by simp [SetPermFn, permMsg, readVarArgs, readVarArgs_map_some, hrec, hq, hp0, hp1],
        by simp [SetPermFn, permMsg, readVarArgs, readVarArgs_map_some, hrec, hq, hp0, hp1],
        by simp [SetPermFn, permMsg, readVarArgs, readVarArgs_map_some, hrec, hq, hp0, hp1],
        by simp [SetPermFn, permMsg, readVarArgs, readVarArgs_map_some, hrec, hq, hp0, hp1,
          List.range_succ_eq_map],
        a1, "gid", by simp, hp1,
        by simp [SetPermFn, permMsg, readVarArgs, readVarArgs_map_some, hrec, hq, hp0, hp1]⟩
    rcases (Bool.eq_false_or_eq_true (parsedOk a2)).symm with hp2 | hp2
    · exact ⟨by simp [SetPermFn, permMsg, readVarArgs, readVarArgs_map_some, hrec, hq, hp0, hp1, hp2],
        by simp [SetPermFn, permMsg, readVarArgs, readVarArgs_map_some, hrec, hq, hp0, hp1, hp2],
        by simp [SetPermFn, permMsg, readVarArgs, readVarArgs_map_some, hrec, hq, hp0, hp1, hp2],
        by simp [SetPermFn, permMsg, readVarArgs, readVarArgs_map_some, hrec, hq, hp0, hp1, hp2],
        by simp [SetPermFn, permMsg, readVarArgs, readVarArgs_map_some, hrec, hq, hp0, hp1, hp2,
          List.range_succ_eq_map],
        a2, "dirmode", by simp, hp2,
        by simp [SetPermFn, permMsg, readVarArgs, readVarArgs_map_some, hrec, hq, hp0, hp1, hp2]⟩
    have hp3 : parsedOk a3 = false := by
      rcases hbad with h | h | h | ⟨_, h⟩
      · exact absurd hp0 (by simp [h])
      · exact absurd hp1 (by simp [h])
      · exact absurd hp2 (by simp [h])
      · exact h
    exact ⟨by simp [SetPermFn, permMsg, readVarArgs, readVarArgs_map_some, hrec, hq, hp0, hp1, hp2, hp3],
      by simp [SetPermFn, permMsg, readVarArgs, readVarArgs_map_some, hrec, hq, hp0, hp1, hp2, hp3],
      by simp [SetPermFn, permMsg, readVarArgs, readVarArgs_map_some, hrec, hq, hp0, hp1, hp2, hp3],
      by simp [SetPermFn, permMsg, readVarArgs, readVarArgs_map_some, hrec, hq, hp0, hp1, hp2, hp3],
      by simp [SetPermFn, permMsg, readVarArgs, readVarArgs_map_some, hrec, hq, hp0, hp1, hp2, hp3,
        List.range_succ_eq_map],
      a3, "filemode", by simp, hp3,
      by simp [SetPermFn, permMsg, readVarArgs, readVarArgs_map_some, hrec, hq, hp0, hp1, hp2, hp3]⟩
  · have hq : ¬ (rest.length + 1 + 1 + 1 + 1 < 4) := by omega
    rcases (Bool.eq_false_or_eq_true (parsedOk a0)).symm with hp0 | hp0
    · exact ⟨by simp [SetPermFn, permMsg, readVarArgs, readVarArgs_map_some, hrec, hq, hp0],
        by simp [SetPermFn, permMsg, readVarArgs, readVarArgs_map_some, hrec, hq, hp0],
        by simp [SetPermFn, permMsg, readVarArgs, readVarArgs_map_some, hrec, hq, hp0],
        by simp [SetPermFn, permMsg, readVarArgs, readVarArgs_map_some, hrec, hq, hp0],
        by simp [SetPermFn, permMsg, readVarArgs, readVarArgs_map_some, hrec, hq, hp0,
          List.range_succ_eq_map],
        a0, "uid", by simp, hp0,
        by simp [SetPermFn, permMsg, readVarArgs, readVarArgs_map_some, hrec, hq, hp0]⟩
    rcases (Bool.eq_false_or_eq_true (parsedOk a1)).symm with hp1 | hp1
    · exact ⟨by simp [SetPermFn, permMsg, readVarArgs, readVarArgs_map_some, hrec, hq, hp0, hp1],
        by simp [SetPermFn, permMsg, readVarArgs, readVarArgs_map_some, hrec, hq, hp0, hp1],
        by simp [SetPermFn, permMsg, readVarArgs, readVarArgs_map_some, hrec, hq, hp0, hp1],
        by simp [SetPermFn, permMsg, readVarArgs, readVarArgs_map_some, hrec, hq, hp0, hp1],
        by simp [SetPermFn, permMsg, readVarArgs, readVarArgs_map_some, hrec, hq, hp0, hp1,
          List.range_succ_eq_map],
        a1, "gid", by simp, hp1,
        by simp [SetPermFn, permMsg, readVarArgs, readVarArgs_map_some, hrec, hq, hp0, hp1]⟩
    have hp2 : parsedOk a2 = false := by
      rcases hbad with h | h | h | ⟨h, _⟩
      · exact absurd hp0 (by simp [h])
      · exact absurd hp1 (by simp [h])
      · exact h
      · exact absurd h hrec
    exact ⟨by simp [SetPermFn, permMsg, readVarArgs, readVarArgs_map_some, hrec, hq, hp0, hp1, hp2],
      by simp [SetPermFn, permMsg, readVarArgs, readVarArgs_map_some, hrec, hq, hp0, hp1, hp2],
      by simp [SetPermFn, permMsg, readVarArgs, readVarArgs_map_some, hrec, hq, hp0, hp1, hp2],
      by simp [SetPermFn, permMsg, readVarArgs, readVarArgs_map_some, hrec, hq, hp0, hp1, hp2],
      by simp [SetPermFn, permMsg, readVarArgs, readVarArgs_map_some, hrec, hq, hp0, hp1, hp2,
        List.range_succ_eq_map],
      a2, "mode", by simp, hp2,
      by simp [SetPermFn, permMsg, readVarArgs, readVarArgs_map_some, hrec, hq, hp0, hp1, hp2]⟩

/-- Witness for C9 at the spec's concrete example
`set_perm("x","0","0644","/a")`: the non-numeric uid aborts with no chmod or
chown performed. -/
theorem C9_set_perm_parse_failure_witness :
    (SetPermFn "set_perm" [some "x", some "0", some "0644", some "/a"] 0).ret
        = .abort ∧
    (SetPermFn "set_perm" [some "x", some "0", some "0644", some "/a"] 0).chowns
        = [] ∧
    (SetPermFn "set_perm" [some "x", some "0", some "0644", some "/a"] 0).chmods
        = [] ∧
    (SetPermFn "set_perm" [some "x", some "0", some "0644", some "/a"] 0).recSets
        = [] ∧
    (SetPermFn "set_perm" [some "x", some "0", some "0644", some "/a"] 0).freed
        = List.range 4 ∧
    ∃ tok kind, tok ∈ ["x", "0", "0644", "/a"] ∧ parsedOk tok = false ∧
      (SetPermFn "set_perm" [some "x", some "0", some "0644", some "/a"] 0).errMsg
        = some (permMsg "set_perm" tok kind) := by
  have h := C9_set_perm_parse_failure_aborts_without_side_effects
    "set_perm" ["x", "0", "0644", "/a"] 0 (by decide) (Or.inl (by decide))
  simpa using h

/-- C10: for mount, unmount and format with all arguments evaluated
successfully but at least one required argument empty, the builtin invokes
`ErrorAbort` (a diagnostic is recorded), returns the abort signal, and frees
every evaluated argument exactly once (mount frees objects 0,1,2; unmount
frees object 0; format frees objects 0,1). -/
theorem C10_empty_required_argument_aborts
    (t1 l1 m1 : String) (wM : MntWorld) (m2 : String) (wU : UmWorld)
    (t3 l3 : String) (wF : FmtWorld) :
    ((t1 = "" ∨ l1 = "" ∨ m1 = "") →
      (MountFn "mount" [some t1, some l1, some m1] wM).ret = .abort ∧
      (MountFn "mount" [some t1, some l1, some m1] wM).errMsg.isSome = true ∧
      (MountFn "mount" [some t1, some l1, some m1] wM).freed = [0, 1, 2]) ∧
    (m2 = "" →
      UnmountFn "unmount" [some m2] wU =
        ⟨.abort, [0], some "mount_point argument to unmount() can't be empty"⟩) ∧
    ((t3 = "" ∨ l3 = "") →
      (FormatFn "format" [some t3, some l3] wF).ret = .abort ∧
      (FormatFn "format" [some t3, some l3] wF).errMsg.isSome = true ∧
      (FormatFn "format" [some t3, some l3] wF).freed = [0, 1]) := by
  refine ⟨fun h => ?_, fun h => ?_, fun h => ?_⟩
  · by_cases h1 : t1 = "" <;> by_cases h2 : l1 = "" <;> by_cases h3 : m1 = "" <;>
      simp [MountFn, readVarArgs, h1, h2, h3]
    tauto
  · simp [UnmountFn, readVarArgs, h]
  · by_cases h1 : t3 = "" <;> by_cases h2 : l3 = "" <;>
      simp [FormatFn, readVarArgs, h1, h2]
    tauto

/-- Witness for C10 at concrete inputs: an empty type for mount, an empty
mount_point for unmount, and an empty type for format each abort with a
recorded diagnostic and all arguments freed. -/
theorem C10_empty_required_argument_aborts_witness :
    ((MountFn "mount" [some "", some "l", some "m"]
        ⟨fun _ => true, true, true⟩).ret = .abort ∧
      (MountFn "mount" [some "", some "l", some "m"]
        ⟨fun _ => true, true, true⟩).errMsg.isSome = true ∧
      (MountFn "mount" [some "", some "l", some "m"]
        ⟨fun _ => true, true, true⟩).freed = [0, 1, 2]) ∧
    (UnmountFn "unmount" [some ""] ⟨fun _ => true⟩ =
      ⟨.abort, [0], some "mount_point argument to unmount() can't be empty"⟩) ∧
    ((FormatFn "format" [some "", some "l"]
        ⟨fun _ => true, true, true, true⟩).ret = .abort ∧
      (FormatFn "format" [some "", some "l"]
        ⟨fun _ => true, true, true, true⟩).errMsg.isSome = true ∧
      (FormatFn "format" [some "", some "l"]
        ⟨fun _ => true, true, true, true⟩).freed = [0, 1]) := by
  have h := C10_empty_required_argument_aborts "" "l" "m"
    ⟨fun _ => true, true, true⟩ "" ⟨fun _ => true⟩ "" "l"
    ⟨fun _ => true, true, true, true⟩
  exact ⟨h.1 (Or.inl rfl), h.2.1 rfl, h.2.2 (Or.inl rfl)⟩

end Updater
